import Mathlib

/-!
Shallow embedding of the diff engine of `compare_upload_Version2.py`
(an Excel-workbook comparison tool) together with proofs of its
specification properties.

Modelling conventions:

* A spreadsheet cell value is a tagged union: null, boolean, integer,
  floating-point, or text.  Finite doubles are modelled as rationals
  (`Rat`), so arithmetic is exact; the claims verified below concern the
  comparison algorithm (closed tolerance interval, coercion order), not
  IEEE-754 rounding.
* Python's `None` and the pandas missing marker `NaN` are both
  represented by the single constructor `CellValue.null`: the two are
  indistinguishable through `compare_values` (both satisfy `pd.isna`,
  both coerce to the empty string on the text path, and a `NaN` on the
  numeric path makes `abs(nan - x) <= tol` false exactly as the text
  path does for the same pair).
* A pandas `DataFrame` is a `Table`: an ordered column-name list plus a
  list of rows, each row an ordered list of cell values positionally
  matching the columns.
-/

namespace ExcelCompare

/-- The loosely-typed spreadsheet cell value domain: null (None / NaN),
boolean, integer, finite floating-point (modelled exactly as a rational),
or text. -/
inductive CellValue where
  | null : CellValue
  | boolVal : Bool → CellValue
  | intVal : Int → CellValue
  | floatVal : Rat → CellValue
  | text : String → CellValue
deriving DecidableEq

/-- `pd.isna(x)`: true for `None` and `NaN`, both folded into `null`. -/
def isna : CellValue → Bool
  | .null => true
  | _ => false

/-- `is_number(x)` from the source.  `isinstance(x, (int, float))` holds
for Python booleans (a subclass of `int`), integers and floats; it never
raises on any value of this domain, so the `float(x)` fallback in the
source's `except` branch is unreachable and text values — numeric-looking
or not — are never numbers.  (`None` is not a number; a float `NaN`, also
folded into `null`, would be, but the difference is unobservable through
`compare_values`, see the module comment.) -/
def is_number : CellValue → Bool
  | .boolVal _ => true
  | .intVal _ => true
  | .floatVal _ => true
  | _ => false

/-- `float(x)` on values satisfying `is_number`: booleans coerce to
1.0 / 0.0, integers and floats to themselves.  (Total with a junk value
on the other constructors; `compare_values` only applies it under an
`is_number` guard, exactly as the source only reaches `float(a)` there.) -/
def pyFloat : CellValue → Rat
  | .boolVal b => if b then 1 else 0
  | .intVal n => (n : Rat)
  | .floatVal q => q
  | _ => 0

/-- The whitespace characters removed by Python's `str.strip()`. -/
def isSpaceChar (c : Char) : Bool :=
  c = ' ' || c = '\t' || c = '\n' || c = '\r' || c = '\x0b' || c = '\x0c'

/-- Python `str.strip()`: drop leading and trailing whitespace. -/
def pyStrip (s : String) : String :=
  String.mk (((s.toList.dropWhile isSpaceChar).reverse.dropWhile isSpaceChar).reverse)

/-- Python `str.lower()` (ASCII case folding suffices for every string a
claim exercises). -/
def pyLower (s : String) : String :=
  String.mk (s.toList.map Char.toLower)

/-- Canonical decimal rendering of a finite double, as Python's `str()`
produces: an integral float renders with a trailing `.0` (`str(5.0) =
"5.0"`).  Non-integral rationals render via `Rat`'s printer; no verified
claim depends on that case. -/
def floatRepr (q : Rat) : String :=
  if q.den = 1 then toString q.num ++ ".0" else toString q

/-- Python `str(x)` on the cell-value domain.  Only ever applied under a
`not isna` guard in `compare_values`, so the `null` case (where Python
would give `"None"` for `None` and `"nan"` for `NaN`) is unreachable
there. -/
def pyStr : CellValue → String
  | .null => "None"
  | .boolVal b => if b then "True" else "False"
  | .intVal n => toString n
  | .floatVal q => floatRepr q
  | .text s => s

/-- The string coercion used by the text-comparison step of the source:
`"" if pd.isna(a) else str(a)`. -/
def coerce_str (v : CellValue) : String :=
  if isna v then "" else pyStr v

/-- `compare_values(a, b, tol, ignore_case)` from the source:
1. both `None`/`NaN` → equal;
2. both numeric → `abs(float(a) - float(b)) <= tol` (the coercions never
   raise on this domain, so this branch always returns);
3. otherwise text comparison of the stripped (and, iff `ignore_case`,
   lower-cased) string coercions;
the source's final `except: return a == b` fallback is unreachable since
no coercion above raises on this domain. -/
def compare_values (a b : CellValue) (tol : Rat) (ignore_case : Bool) : Bool :=
  if isna a && isna b then
    true
  else if is_number a && is_number b then
    decide (|pyFloat a - pyFloat b| ≤ tol)
  else
    let sa := coerce_str a
    let sb := coerce_str b
    if ignore_case then
      pyLower (pyStrip sa) == pyLower (pyStrip sb)
    else
      pyStrip sa == pyStrip sb

/-- A pandas `DataFrame`: an ordered list of (string) column names and a
list of rows, each row listing the cell values positionally under the
columns.  `normalize_dataframe` has already made column names strings and
the row index positional, which this representation builds in. -/
structure Table where
  cols : List String
  rows : List (List CellValue)
deriving DecidableEq

/-- `normalize_dataframe(df)`: stringify the column names and reset the
row index to positions.  Column names are strings and rows positional in
this model already, so both operations are the identity. -/
def normalize_dataframe (t : Table) : Table :=
  { cols := t.cols, rows := t.rows }

/-- `df.at[r, c]`: the cell of row `r` under column name `c`; the pandas
missing marker `NaN` (here `null`) when the row or the column is absent. -/
def cellAt (t : Table) (r : Nat) (c : String) : CellValue :=
  match t.rows[r]? with
  | none => .null
  | some row =>
    match (t.cols.zip row).lookup c with
    | none => .null
    | some v => v

/-- Python's string less-than on the underlying character sequences:
lexicographic by code point. -/
def charsLt : List Char → List Char → Bool
  | _, [] => false
  | [], _ :: _ => true
  | a :: as, b :: bs => if a < b then true else if b < a then false else charsLt as bs

/-- Python's `<` on strings. -/
def strLt (a b : String) : Bool :=
  charsLt a.toList b.toList

/-- Python's `<=` on strings (total order, so `a <= b` iff `not (b < a)`). -/
def strLe (a b : String) : Bool :=
  ! strLt b a

/-- `sorted(set(xs).union(set(ys)))` with string comparison: the
duplicate-free union, sorted ascending.  (Python's stable `sorted` on
distinct keys produces exactly the unique ascending arrangement, which a
stable insertion sort also produces.) -/
def sorted_union (xs ys : List String) : List String :=
  List.insertionSort (fun a b => strLe a b = true) ((xs ++ ys).dedup)

/-- The `all_columns` of `compare_sheets`: sorted union of both column
sets. -/
def unionColumns (l r : Table) : List String :=
  sorted_union l.cols r.cols

/-- The two `reindex` calls of `compare_sheets`: reshape `t` to the
column list `cols` and the row range `range(maxRows)`, filling every cell
absent from `t` (missing column or missing row) with `NaN`. -/
def alignTable (t : Table) (cols : List String) (maxRows : Nat) : Table :=
  { cols := cols
    rows := (List.range maxRows).map fun r => cols.map fun c => cellAt t r c }

/-- One reported cell-level difference. -/
structure DiffRecord where
  sheet : String
  row_index : Nat
  excel_row : Nat
  column : String
  left_value : CellValue
  right_value : CellValue
deriving DecidableEq

/-- The per-sheet comparison summary. -/
structure SheetSummary where
  sheet : String
  left_rows : Nat
  right_rows : Nat
  left_cols : Nat
  right_cols : Nat
  diff_count : Nat
deriving DecidableEq

/-- `compare_sheets(df_left, df_right, sheet_name, tol, ignore_case)`:
record the original shapes, normalize, align both tables to the sorted
column union and the common row count, sweep the aligned coordinate
space row-major emitting a `DiffRecord` per unequal cell pair, and
finish the summary with the diff count. -/
def compare_sheets (dfLeft dfRight : Table) (sheetName : String)
    (tol : Rat) (ignore_case : Bool) : List DiffRecord × SheetSummary :=
  let leftRows := dfLeft.rows.length
  let rightRows := dfRight.rows.length
  let leftCols := dfLeft.cols.length
  let rightCols := dfRight.cols.length
  let dfL := normalize_dataframe dfLeft
  let dfR := normalize_dataframe dfRight
  let allColumns := unionColumns dfL dfR
  let maxRows := max dfL.rows.length dfR.rows.length
  let dfL := alignTable dfL allColumns maxRows
  let dfR := alignTable dfR allColumns maxRows
  let diffs := (List.range maxRows).flatMap fun r =>
    allColumns.filterMap fun c =>
      let a := cellAt dfL r c
      let b := cellAt dfR r c
      if compare_values a b tol ignore_case then none
      else some { sheet := sheetName, row_index := r, excel_row := r + 1,
                  column := c, left_value := a, right_value := b }
  (diffs,
   { sheet := sheetName, left_rows := leftRows, right_rows := rightRows,
     left_cols := leftCols, right_cols := rightCols,
     diff_count := diffs.length })

/-- A workbook: sheet names (unique) mapped to tables, in sheet order. -/
structure Workbook where
  sheets : List (String × Table)
deriving DecidableEq

/-- The sheet names of a workbook (`book.keys()`). -/
def sheetNames (w : Workbook) : List String :=
  w.sheets.map Prod.fst

/-- `sheet in book` membership test. -/
def hasSheet (w : Workbook) (s : String) : Bool :=
  (sheetNames w).contains s

/-- `book[sheet]` lookup (only ever reached under a `hasSheet` guard in
the orchestrator, as in the source; an empty table as the junk value
otherwise). -/
def getSheet (w : Workbook) (s : String) : Table :=
  match w.sheets.lookup s with
  | some t => t
  | none => { cols := [], rows := [] }

/-- One entry of the output summary sheet: a full comparison summary, or
a presence-only note for a sheet found in a single workbook. -/
inductive SummaryEntry where
  | compared : SheetSummary → SummaryEntry
  | presence : String → String → SummaryEntry
deriving DecidableEq

/-- The loop body of `upload_and_compare` for one selected sheet: a sheet
absent from the left workbook gets the presence note `"only_in_right"`, a
sheet absent from the right workbook gets `"only_in_left"`, and a sheet
present in both is compared. -/
def sheet_entry (leftBook rightBook : Workbook) (sheet : String)
    (tol : Rat) (ignore_case : Bool) : List DiffRecord × SummaryEntry :=
  if ¬ hasSheet leftBook sheet then
    ([], .presence sheet "only_in_right")
  else if ¬ hasSheet rightBook sheet then
    ([], .presence sheet "only_in_left")
  else
    let result := compare_sheets (getSheet leftBook sheet) (getSheet rightBook sheet)
      sheet tol ignore_case
    (result.1, .compared result.2)

/-- The comparison loop of `upload_and_compare`: over the selected sheets
in order, concatenate every sheet's diff records (`all_diffs`) and append
every sheet's summary entry (`summaries`). -/
def upload_and_compare_core (leftBook rightBook : Workbook)
    (sheetsToCompare : List String) (tol : Rat) (ignore_case : Bool) :
    List DiffRecord × List SummaryEntry :=
  (sheetsToCompare.flatMap fun s => (sheet_entry leftBook rightBook s tol ignore_case).1,
   sheetsToCompare.map fun s => (sheet_entry leftBook rightBook s tol ignore_case).2)

/-- Python's `str.split(",")` on the character sequence: cut at every
comma; the empty string yields one empty field. -/
def splitCommas : List Char → List (List Char)
  | [] => [[]]
  | c :: cs =>
    match splitCommas cs, decide (c = ',') with
    | rest, true => [] :: rest
    | [], false => [[c]]
    | r :: rs, false => (c :: r) :: rs

/-- Python's `s.split(",")`. -/
def pySplitComma (s : String) : List String :=
  (splitCommas s.toList).map String.mk

/-- The `requested` list of `upload_and_compare`: split the sheets form
field on commas, strip each name, drop the empty ones. -/
def requested_names (sheetsInput : String) : List String :=
  ((pySplitComma sheetsInput).map pyStrip).filter fun s => s ≠ ""

/-- The sheet-selection step of `upload_and_compare`.  The form field is
stripped on entry; when nonempty, the requested names are filtered to the
sheets present in at least one workbook and an empty result aborts the
request (`none`, the source's "No requested sheets found in either file."
rejection); when empty, every sheet of either workbook is selected in
sorted order. -/
def select_sheets (sheetsInput : String) (leftNames rightNames : List String) :
    Option (List String) :=
  let si := pyStrip sheetsInput
  if si ≠ "" then
    let requested := requested_names si
    let toCompare := requested.filter fun s => leftNames.contains s || rightNames.contains s
    if toCompare.isEmpty then none else some toCompare
  else
    some (sorted_union leftNames rightNames)

/-- A sample table with two columns and one row, for concrete instances. -/
def sampleLeft : Table :=
  { cols := ["B", "A"], rows := [[.text "x", .text "y"]] }

/-- A sample table with one fresh column and two rows, for concrete
instances. -/
def sampleRight : Table :=
  { cols := ["C"], rows := [[.text "z"], [.text "w"]] }

/-! ### Bridge lemmas: the executable Python string order agrees with
Mathlib's order on `String`, and facts about the sorted union, cell
lookup and alignment. -/

theorem charsLt_iff_lex : ∀ (as bs : List Char),
    charsLt as bs = true ↔ List.Lex (· < ·) as bs := by
  intro as
  induction as with
  | nil =>
    intro bs
    cases bs with
    | nil =>
      exact ⟨fun h => by simp [charsLt] at h, fun h => by cases h⟩
    | cons b bs =>
      exact ⟨fun _ => List.Lex.nil, fun _ => rfl⟩
  | cons a as ih =>
    intro bs
    cases bs with
    | nil =>
      exact ⟨fun h => by simp [charsLt] at h, fun h => by cases h⟩
    | cons b bs =>
      simp only [charsLt]
      rcases lt_trichotomy a b with hab | heq | hba
      · rw [if_pos hab]
        exact ⟨fun _ => List.Lex.rel hab, fun _ => rfl⟩
      · subst heq
        rw [if_neg (lt_irrefl a), if_neg (lt_irrefl a)]
        constructor
        · exact fun h => List.Lex.cons ((ih bs).mp h)
        · intro h
          cases h with
          | cons h' => exact (ih bs).mpr h'
          | rel h' => exact absurd h' (lt_irrefl a)
      · rw [if_neg (asymm hba), if_pos hba]
        constructor
        · intro h; simp at h
        · intro h
          cases h with
          | rel h' => exact absurd h' (asymm hba)
          | cons h' => exact absurd hba (lt_irrefl a)

theorem strLt_iff (a b : String) : strLt a b = true ↔ a < b := by
  rw [String.lt_iff_toList_lt]
  exact charsLt_iff_lex _ _

theorem strLe_iff (a b : String) : strLe a b = true ↔ a ≤ b := by
  unfold strLe
  rw [Bool.not_eq_true', ← Bool.not_eq_true, strLt_iff, not_lt]

instance : IsTotal String fun a b => strLe a b = true :=
  ⟨fun a b => by rw [strLe_iff, strLe_iff]; exact le_total a b⟩

instance : IsTrans String fun a b => strLe a b = true :=
  ⟨fun a b c hab hbc => by
    rw [strLe_iff] at hab hbc ⊢
    exact le_trans hab hbc⟩

theorem mem_sorted_union {c : String} (xs ys : List String) :
    c ∈ sorted_union xs ys ↔ c ∈ xs ∨ c ∈ ys := by
  unfold sorted_union
  rw [(List.perm_insertionSort _ _).mem_iff, List.mem_dedup, List.mem_append]

theorem sorted_union_nodup (xs ys : List String) : (sorted_union xs ys).Nodup :=
  (List.perm_insertionSort _ _).symm.nodup (List.nodup_dedup _)

theorem sorted_union_sorted (xs ys : List String) :
    (sorted_union xs ys).Sorted (· < ·) := by
  have h := List.sorted_insertionSort (fun a b : String => strLe a b = true) ((xs ++ ys).dedup)
  have hle : (sorted_union xs ys).Sorted (· ≤ ·) :=
    List.Pairwise.imp (fun hab => (strLe_iff _ _).mp hab) h
  exact hle.lt_of_le (sorted_union_nodup xs ys)

theorem lookup_zip_map (f : String → CellValue) (cols : List String) (c : String) :
    (cols.zip (cols.map f)).lookup c = if c ∈ cols then some (f c) else none := by
  induction cols with
  | nil => rfl
  | cons hd tl ih =>
    by_cases h : c = hd
    · subst h
      simp [List.zip_cons_cons, List.lookup_cons]
    · have hbeq : (c == hd) = false := by
        rw [beq_eq_false_iff_ne]
        exact h
      simp [List.zip_cons_cons, List.lookup_cons, hbeq, ih, List.mem_cons, h]

theorem lookup_zip_of_not_mem {c : String} :
    ∀ (xs : List String) (ys : List CellValue), c ∉ xs → (xs.zip ys).lookup c = none
  | [], _, _ => rfl
  | _ :: _, [], _ => rfl
  | x :: xs, y :: ys, h => by
    have hbeq : (c == x) = false := by
      rw [beq_eq_false_iff_ne]
      exact fun hc => h (hc ▸ List.mem_cons_self x xs)
    rw [List.zip_cons_cons, List.lookup_cons, hbeq]
    exact lookup_zip_of_not_mem xs ys fun hm => h (List.mem_cons_of_mem x hm)

theorem cellAt_def (t : Table) (r : Nat) (c : String) :
    cellAt t r c =
      match t.rows[r]? with
      | none => .null
      | some row =>
        match (t.cols.zip row).lookup c with
        | none => .null
        | some v => v := rfl

theorem cellAt_of_le_rows (t : Table) (r : Nat) (c : String) (hr : t.rows.length ≤ r) :
    cellAt t r c = .null := by
  rw [cellAt_def, List.getElem?_eq_none hr]

theorem cellAt_of_not_mem_cols (t : Table) (r : Nat) (c : String) (hc : c ∉ t.cols) :
    cellAt t r c = .null := by
  rw [cellAt_def]
  cases t.rows[r]? with
  | none => rfl
  | some row =>
    show (match (t.cols.zip row).lookup c with
          | none => CellValue.null
          | some v => v) = CellValue.null
    rw [lookup_zip_of_not_mem t.cols row hc]

theorem cellAt_alignTable (t : Table) (cols : List String) (n r : Nat) (c : String) :
    cellAt (alignTable t cols n) r c =
      if r < n ∧ c ∈ cols then cellAt t r c else .null := by
  by_cases hr : r < n
  · have hrow : (alignTable t cols n).rows[r]? = some (cols.map fun x => cellAt t r x) := by
      show ((List.range n).map fun rr => cols.map fun x => cellAt t rr x)[r]? = _
      rw [List.getElem?_map, List.getElem?_range hr, Option.map_some']
    rw [cellAt_def, hrow]
    show (match ((cols.zip (cols.map fun x => cellAt t r x)).lookup c) with
          | none => CellValue.null
          | some v => v) = _
    rw [lookup_zip_map]
    by_cases hc : c ∈ cols
    · simp [hr, hc]
    · simp [hr, hc]
  · have hrow : (alignTable t cols n).rows[r]? = none := by
      apply List.getElem?_eq_none
      show ((List.range n).map fun rr => cols.map fun x => cellAt t rr x).length ≤ r
      rw [List.length_map, List.length_range]
      omega
    rw [cellAt_def, hrow]
    simp [hr]

theorem compare_values_self (v : CellValue) (tol : Rat) (ic : Bool) (h : 0 ≤ tol) :
    compare_values v v tol ic = true := by
  cases v with
  | null => rfl
  | boolVal b =>
    simpa [compare_values, isna, is_number, sub_self, abs_zero, decide_eq_true_eq] using h
  | intVal n =>
    simpa [compare_values, isna, is_number, sub_self, abs_zero, decide_eq_true_eq] using h
  | floatVal q =>
    simpa [compare_values, isna, is_number, sub_self, abs_zero, decide_eq_true_eq] using h
  | text s =>
    cases ic <;> simp [compare_values, isna, is_number, coerce_str]

theorem alignTable_rows_length (t : Table) (cols : List String) (n : Nat) :
    (alignTable t cols n).rows.length = n := by
  show ((List.range n).map fun rr => cols.map fun x => cellAt t rr x).length = n
  rw [List.length_map, List.length_range]

theorem cellAt_align_null_of_rows (t : Table) (cols : List String) (n i : Nat) (c : String)
    (h : t.rows.length ≤ i) : cellAt (alignTable t cols n) i c = .null := by
  rw [cellAt_alignTable]
  by_cases hi : i < n ∧ c ∈ cols
  · rw [if_pos hi]
    exact cellAt_of_le_rows t i c h
  · rw [if_neg hi]

theorem cellAt_align_null_of_cols (t : Table) (cols : List String) (n i : Nat) (c : String)
    (h : c ∉ t.cols) : cellAt (alignTable t cols n) i c = .null := by
  rw [cellAt_alignTable]
  by_cases hi : i < n ∧ c ∈ cols
  · rw [if_pos hi]
    exact cellAt_of_not_mem_cols t i c h
  · rw [if_neg hi]

theorem compare_sheets_diffs_eq (l r : Table) (name : String) (tol : Rat) (ic : Bool) :
    (compare_sheets l r name tol ic).1 =
      (List.range (max l.rows.length r.rows.length)).flatMap fun rIdx =>
        (unionColumns l r).filterMap fun c =>
          if compare_values
              (cellAt (alignTable l (unionColumns l r) (max l.rows.length r.rows.length)) rIdx c)
              (cellAt (alignTable r (unionColumns l r) (max l.rows.length r.rows.length)) rIdx c)
              tol ic then
            none
          else
            some { sheet := name, row_index := rIdx, excel_row := rIdx + 1, column := c,
                   left_value :=
                     cellAt (alignTable l (unionColumns l r) (max l.rows.length r.rows.length))
                       rIdx c,
                   right_value :=
                     cellAt (alignTable r (unionColumns l r) (max l.rows.length r.rows.length))
                       rIdx c } := rfl

theorem compare_sheets_diff_count (l r : Table) (name : String) (tol : Rat) (ic : Bool) :
    (compare_sheets l r name tol ic).2.diff_count = (compare_sheets l r name tol ic).1.length :=
  rfl

/-- C3: aligning two tables yields two tables of row count
`max(leftRows, rightRows)` with the same ordered column list — the union
of both column sets, strictly sorted by string comparison (so equal to it
as a set, and pinned uniquely by sortedness + nodup) — and every cell in
a padded row, or under a column the side's original table lacks, is the
null marker; the spec's example `{"B","A"}` vs `{"C"}` gives
`["A","B","C"]`. -/
theorem c3_alignment_shape (l r : Table) :
    (alignTable l (unionColumns l r) (max l.rows.length r.rows.length)).rows.length
      = max l.rows.length r.rows.length ∧
    (alignTable r (unionColumns l r) (max l.rows.length r.rows.length)).rows.length
      = max l.rows.length r.rows.length ∧
    (alignTable l (unionColumns l r) (max l.rows.length r.rows.length)).cols
      = (alignTable r (unionColumns l r) (max l.rows.length r.rows.length)).cols ∧
    (∀ c, c ∈ unionColumns l r ↔ c ∈ l.cols ∨ c ∈ r.cols) ∧
    (unionColumns l r).Sorted (· < ·) ∧
    (∀ i c, l.rows.length ≤ i →
      cellAt (alignTable l (unionColumns l r) (max l.rows.length r.rows.length)) i c
        = CellValue.null) ∧
    (∀ i c, c ∉ l.cols →
      cellAt (alignTable l (unionColumns l r) (max l.rows.length r.rows.length)) i c
        = CellValue.null) ∧
    (∀ i c, r.rows.length ≤ i →
      cellAt (alignTable r (unionColumns l r) (max l.rows.length r.rows.length)) i c
        = CellValue.null) ∧
    (∀ i c, c ∉ r.cols →
      cellAt (alignTable r (unionColumns l r) (max l.rows.length r.rows.length)) i c
        = CellValue.null) ∧
    unionColumns { cols := ["B", "A"], rows := [] } { cols := ["C"], rows := [] }
      = ["A", "B", "C"] := by
  refine ⟨alignTable_rows_length _ _ _, alignTable_rows_length _ _ _, rfl,
    fun c => mem_sorted_union _ _, sorted_union_sorted _ _,
    fun i c h => cellAt_align_null_of_rows _ _ _ _ _ h,
    fun i c h => cellAt_align_null_of_cols _ _ _ _ _ h,
    fun i c h => cellAt_align_null_of_rows _ _ _ _ _ h,
    fun i c h => cellAt_align_null_of_cols _ _ _ _ _ h,
    by decide⟩

/-- C3 witness: the alignment padding at a concrete table pair — the
left table's single row means row index 1 is padding, and column "C" is
absent from the left table, so both cells are null. -/
theorem c3_alignment_shape_witness :
    sampleLeft.rows.length ≤ 1 ∧ "C" ∉ sampleLeft.cols ∧
    cellAt (alignTable sampleLeft (unionColumns sampleLeft sampleRight)
      (max sampleLeft.rows.length sampleRight.rows.length)) 1 "A" = CellValue.null ∧
    cellAt (alignTable sampleLeft (unionColumns sampleLeft sampleRight)
      (max sampleLeft.rows.length sampleRight.rows.length)) 0 "C" = CellValue.null :=
  ⟨by decide, by decide,
   (c3_alignment_shape sampleLeft sampleRight).2.2.2.2.2.1 1 "A" (by decide),
   (c3_alignment_shape sampleLeft sampleRight).2.2.2.2.2.2.1 0 "C" (by decide)⟩

/-- C4: the emitted SheetSummary carries the sheet name and the original,
pre-alignment row and column counts of both input tables; its diff count
is the number of emitted DiffRecords, and every emitted DiffRecord's
value pair was judged unequal (so no record exists for a pair judged
equal). -/
theorem c4_summary_original_counts (l r : Table) (name : String) (tol : Rat) (ic : Bool) :
    (compare_sheets l r name tol ic).2.sheet = name ∧
    (compare_sheets l r name tol ic).2.left_rows = l.rows.length ∧
    (compare_sheets l r name tol ic).2.right_rows = r.rows.length ∧
    (compare_sheets l r name tol ic).2.left_cols = l.cols.length ∧
    (compare_sheets l r name tol ic).2.right_cols = r.cols.length ∧
    (compare_sheets l r name tol ic).2.diff_count = (compare_sheets l r name tol ic).1.length ∧
    (∀ d ∈ (compare_sheets l r name tol ic).1,
      compare_values d.left_value d.right_value tol ic = false) ∧
    ∀ rIdx c,
      compare_values
          (cellAt (alignTable l (unionColumns l r) (max l.rows.length r.rows.length)) rIdx c)
          (cellAt (alignTable r (unionColumns l r) (max l.rows.length r.rows.length)) rIdx c)
          tol ic = true →
      ∀ d ∈ (compare_sheets l r name tol ic).1, ¬(d.row_index = rIdx ∧ d.column = c) := by
  refine ⟨rfl, rfl, rfl, rfl, rfl, rfl, ?_, ?_⟩
  · intro d hd
    rw [compare_sheets_diffs_eq, List.mem_flatMap] at hd
    obtain ⟨rIdx, _, hd⟩ := hd
    rw [List.mem_filterMap] at hd
    obtain ⟨c, _, hd⟩ := hd
    split at hd
    · exact absurd hd (by simp)
    · rename_i hcmp
      injection hd with hd
      subst hd
      simpa using hcmp
  · intro rIdx c hcmp d hd hdc
    rw [compare_sheets_diffs_eq, List.mem_flatMap] at hd
    obtain ⟨rIdx2, _, hd⟩ := hd
    rw [List.mem_filterMap] at hd
    obtain ⟨c2, _, hd⟩ := hd
    split at hd
    · exact absurd hd (by simp)
    · rename_i hcmp2
      injection hd with hd
      subst hd
      obtain ⟨hr, hc⟩ := hdc
      have hr2 : rIdx2 = rIdx := hr
      have hc2 : c2 = c := hc
      subst hr2
      subst hc2
      exact hcmp2 hcmp

/-- C4 witness: a concrete one-cell comparison whose single DiffRecord's
value pair is judged unequal. -/
theorem c4_summary_original_counts_witness :
    ({ sheet := "S", row_index := 0, excel_row := 1, column := "v",
       left_value := CellValue.text "x", right_value := CellValue.text "y" } : DiffRecord)
      ∈ (compare_sheets { cols := ["v"], rows := [[.text "x"]] }
          { cols := ["v"], rows := [[.text "y"]] } "S" 0 false).1 ∧
    compare_values (CellValue.text "x") (CellValue.text "y") 0 false = false :=
  ⟨by decide,
   (c4_summary_original_counts { cols := ["v"], rows := [[.text "x"]] }
       { cols := ["v"], rows := [[.text "y"]] } "S" 0 false).2.2.2.2.2.2.1
     { sheet := "S", row_index := 0, excel_row := 1, column := "v",
       left_value := CellValue.text "x", right_value := CellValue.text "y" }
     (by decide)⟩

/-- C5: comparing any table against itself, at any nonnegative tolerance
and either case setting, yields no DiffRecords and a summary diff count
of zero. -/
theorem c5_reflexivity (t : Table) (name : String) (tol : Rat) (ic : Bool) (h : 0 ≤ tol) :
    (compare_sheets t t name tol ic).1 = [] ∧
    (compare_sheets t t name tol ic).2.diff_count = 0 := by
  have hdiffs : (compare_sheets t t name tol ic).1 = [] := by
    rw [compare_sheets_diffs_eq, List.flatMap_eq_nil_iff]
    intro rIdx _
    rw [List.filterMap_eq_nil_iff]
    intro c _
    rw [if_pos (compare_values_self _ tol ic h)]
  refine ⟨hdiffs, ?_⟩
  rw [compare_sheets_diff_count, hdiffs]
  rfl

/-- C5 witness: reflexivity at a concrete table and tolerance 0. -/
theorem c5_reflexivity_witness :
    (0 : Rat) ≤ 0 ∧ (compare_sheets sampleLeft sampleLeft "S" 0 true).1 = [] :=
  ⟨le_refl 0, (c5_reflexivity sampleLeft "S" 0 true (le_refl 0)).1⟩

/-- C1: at the failing input — the text "5.0" against the integer 5 with
tolerance 0 — `is_number` rejects the numeric-looking text (the
`float(x)` fallback in the source's `except` branch is unreachable, since
the `isinstance` tests never raise), so `compare_values` takes the text
path, compares "5.0" against "5", judges them unequal, and
`compare_sheets` emits a DiffRecord; the claim says both coerce to the
double 5.0, compare equal, and produce no DiffRecord. -/
theorem c1_numeric_looking_text_diffs :
    is_number (CellValue.text "5.0") = false ∧
    compare_values (CellValue.text "5.0") (CellValue.intVal 5) 0 false = false ∧
    (compare_sheets { cols := ["v"], rows := [[.text "5.0"]] }
        { cols := ["v"], rows := [[.intVal 5]] } "Sheet1" 0 false).2.diff_count = 1 :=
  ⟨rfl, by decide, by decide⟩

/-- C2 counterexample: a workbook pair whose sheet "A" exists only in the
left workbook; the orchestrator's presence-only note is "only_in_left" —
not the "only_in_right" the claim asserts for a left-only sheet. -/
theorem c2_counterexample :
    (upload_and_compare_core { sheets := [("A", { cols := [], rows := [] })] }
        { sheets := [] } ["A"] 0 false).2
      = [SummaryEntry.presence "A" "only_in_left"] ∧
    SummaryEntry.presence "A" "only_in_left" ≠ SummaryEntry.presence "A" "only_in_right" :=
  ⟨by decide, by decide⟩

/-- C2 (amended): the presence-only note names the side the sheet IS
present in — a sheet present only in the left workbook is annotated
"only_in_left", one present only in the right workbook "only_in_right" —
and the orchestrator appends exactly one summary entry per selected sheet
in selection order. -/
theorem c2_presence_note_names_present_side (L R : Workbook) (s : String)
    (tol : Rat) (ic : Bool) :
    (hasSheet L s = true → hasSheet R s = false →
      (sheet_entry L R s tol ic).2 = SummaryEntry.presence s "only_in_left") ∧
    (hasSheet L s = false → hasSheet R s = true →
      (sheet_entry L R s tol ic).2 = SummaryEntry.presence s "only_in_right") ∧
    ∀ names : List String,
      (upload_and_compare_core L R names tol ic).2
        = names.map fun x => (sheet_entry L R x tol ic).2 := by
  refine ⟨fun h1 h2 => ?_, fun h1 h2 => ?_, fun names => rfl⟩
  · simp [sheet_entry, h1, h2]
  · simp [sheet_entry, h1]

/-- C2 witness: the amended statement at the concrete left-only workbook
pair of the counterexample. -/
theorem c2_presence_note_witness :
    (sheet_entry { sheets := [("A", { cols := [], rows := [] })] } { sheets := [] }
        "A" 0 false).2 = SummaryEntry.presence "A" "only_in_left" :=
  (c2_presence_note_names_present_side { sheets := [("A", { cols := [], rows := [] })] }
      { sheets := [] } "A" 0 false).1 (by decide) (by decide)

/-- C6: the tolerance interval is closed — 5 and 5 + t compare equal at
tolerance t, while 5 and 5 + t + ε compare unequal for any ε > 0 — and at
tolerance 0 two floats compare equal exactly when they are equal. -/
theorem c6_tolerance_boundary (t eps : Rat) (ic : Bool) (ht : 0 ≤ t) (heps : 0 < eps) :
    compare_values (.floatVal 5) (.floatVal (5 + t)) t ic = true ∧
    compare_values (.floatVal 5) (.floatVal (5 + t + eps)) t ic = false ∧
    ∀ x y : Rat, (compare_values (.floatVal x) (.floatVal y) 0 ic = true ↔ x = y) := by
  refine ⟨?_, ?_, ?_⟩
  · have h5 : (5 : Rat) - (5 + t) = -t := by ring
    simp [compare_values, isna, is_number, pyFloat, h5, abs_neg, abs_of_nonneg ht]
  · have h5 : (5 : Rat) - (5 + t + eps) = -(t + eps) := by ring
    have hgt : ¬(t + eps ≤ t) := not_le.mpr (lt_add_of_pos_right t heps)
    have key : ¬(|pyFloat (.floatVal 5) - pyFloat (.floatVal (5 + t + eps))| ≤ t) := by
      show ¬(|(5 : Rat) - (5 + t + eps)| ≤ t)
      rw [h5, abs_neg, abs_of_nonneg (add_nonneg ht (le_of_lt heps))]
      exact hgt
    simp [compare_values, isna, is_number, key]
  · intro x y
    simp [compare_values, isna, is_number, pyFloat, abs_nonpos_iff, sub_eq_zero]

/-- C6 witness: the boundary behaviour at tolerance 1 and ε = 1. -/
theorem c6_tolerance_boundary_witness :
    (0 : Rat) ≤ 1 ∧ (0 : Rat) < 1 ∧
    compare_values (.floatVal 5) (.floatVal (5 + 1)) 1 false = true ∧
    compare_values (.floatVal 5) (.floatVal (5 + 1 + 1)) 1 false = false :=
  ⟨zero_le_one, zero_lt_one,
   (c6_tolerance_boundary 1 1 false zero_le_one zero_lt_one).1,
   (c6_tolerance_boundary 1 1 false zero_le_one zero_lt_one).2.1⟩

/-- C7: whenever a value pair reaches the text step (not both null, not
both numeric), both values are coerced to strings (null to the empty
string, via `coerce_str`), both are whitespace-stripped regardless of the
case setting, and they are lower-cased before comparing exactly when
`ignore_case` is set; in particular "Foo " and "foo" compare equal with
`ignore_case` and unequal without. -/
theorem c7_text_comparison (a b : CellValue) (tol : Rat)
    (hna : ¬(isna a = true ∧ isna b = true))
    (hnum : ¬(is_number a = true ∧ is_number b = true)) :
    compare_values a b tol false = (pyStrip (coerce_str a) == pyStrip (coerce_str b)) ∧
    compare_values a b tol true
      = (pyLower (pyStrip (coerce_str a)) == pyLower (pyStrip (coerce_str b))) ∧
    compare_values (.text "Foo ") (.text "foo") tol true = true ∧
    compare_values (.text "Foo ") (.text "foo") tol false = false := by
  have h1 : ¬((isna a && isna b) = true) := by
    rw [Bool.and_eq_true]
    exact hna
  have h2 : ¬((is_number a && is_number b) = true) := by
    rw [Bool.and_eq_true]
    exact hnum
  exact ⟨by simp [compare_values, h1, h2], by simp [compare_values, h1, h2], rfl, rfl⟩

/-- C7 witness: the text step at the concrete pair "Foo " and "foo" with
tolerance 0. -/
theorem c7_text_comparison_witness :
    compare_values (.text "Foo ") (.text "foo") 0 false
      = (pyStrip (coerce_str (.text "Foo ")) == pyStrip (coerce_str (.text "foo"))) ∧
    compare_values (.text "Foo ") (.text "foo") 0 true = true :=
  ⟨(c7_text_comparison (.text "Foo ") (.text "foo") 0 (by decide) (by decide)).1,
   (c7_text_comparison (.text "Foo ") (.text "foo") 0 (by decide) (by decide)).2.2.1⟩

/-- C8: the equality predicate is total over the whole cell-value domain:
for every pair of values, tolerance and case setting it returns a
boolean (in this embedding every coercion it performs is total on the
domain, so the source's raw-equality fallback is never needed). -/
theorem c8_equality_total (a b : CellValue) (tol : Rat) (ic : Bool) :
    compare_values a b tol ic = true ∨ compare_values a b tol ic = false := by
  cases compare_values a b tol ic
  · exact Or.inr rfl
  · exact Or.inl rfl

/-- C9: with an explicit nonempty selection, exactly the requested names
present in at least one workbook are selected, and if none is present the
request fails (`none`); with no explicit selection, the selected sheets
are the sorted union of both workbooks' sheet names. -/
theorem c9_sheet_selection (input : String) (ln rn : List String) :
    (pyStrip input ≠ "" →
      ((∀ s ∈ requested_names (pyStrip input), s ∉ ln ∧ s ∉ rn) →
        select_sheets input ln rn = none) ∧
      ∀ L, select_sheets input ln rn = some L →
        ∀ s, s ∈ L ↔ s ∈ requested_names (pyStrip input) ∧ (s ∈ ln ∨ s ∈ rn)) ∧
    (pyStrip input = "" →
      ∃ L, select_sheets input ln rn = some L ∧
        L.Sorted (· < ·) ∧ ∀ s, s ∈ L ↔ s ∈ ln ∨ s ∈ rn) := by
  constructor
  · intro hne
    constructor
    · intro habs
      have hfil : (requested_names (pyStrip input)).filter
          (fun s => ln.contains s || rn.contains s) = [] := by
        rw [List.filter_eq_nil_iff]
        intro s hs
        obtain ⟨h1, h2⟩ := habs s hs
        simp [h1, h2]
      simp only [select_sheets]
      rw [if_pos hne, hfil]
      rfl
    · intro L hL s
      simp only [select_sheets, hne, if_true, ne_eq, not_false_iff] at hL
      split at hL
      · exact absurd hL (by simp)
      · injection hL with hL
        subst hL
        rw [List.mem_filter]
        simp
  · intro hempty
    refine ⟨sorted_union ln rn, ?_, sorted_union_sorted ln rn, fun s => mem_sorted_union ln rn⟩
    simp [select_sheets, hempty]

/-- C9 witness: concrete selections — an explicit request naming no
present sheet fails, an explicit request is filtered to present sheets,
and the empty request selects the sorted union. -/
theorem c9_sheet_selection_witness :
    select_sheets "X, Y" ["B", "A"] ["C"] = none ∧
    ("C" ∈ ["C"] ↔ "C" ∈ requested_names (pyStrip "X, C") ∧
      ("C" ∈ ["B", "A"] ∨ "C" ∈ ["C"])) ∧
    ∃ L, select_sheets "" ["B", "A"] ["C"] = some L ∧
      L.Sorted (· < ·) ∧ ∀ s, s ∈ L ↔ s ∈ ["B", "A"] ∨ s ∈ ["C"] :=
  ⟨((c9_sheet_selection "X, Y" ["B", "A"] ["C"]).1 (by decide)).1 (by decide),
   ((c9_sheet_selection "X, C" ["B", "A"] ["C"]).1 (by decide)).2 ["C"] (by decide) "C",
   (c9_sheet_selection "" ["B", "A"] ["C"]).2 rfl⟩

/-- C10: booleans pass the numeric test and coerce to 1.0 / 0.0, so True
compares equal to the integer 1 and the float 1.0 (and False to 0) at
every nonnegative tolerance. -/
theorem c10_bool_numeric_equality (t : Rat) (ic : Bool) (ht : 0 ≤ t) :
    compare_values (.boolVal true) (.intVal 1) t ic = true ∧
    compare_values (.boolVal true) (.floatVal 1) t ic = true ∧
    compare_values (.boolVal false) (.intVal 0) t ic = true ∧
    compare_values (.boolVal false) (.floatVal 0) t ic = true ∧
    (∀ b, is_number (.boolVal b) = true) ∧
    pyFloat (.boolVal true) = 1 ∧ pyFloat (.boolVal false) = 0 := by
  refine ⟨?_, ?_, ?_, ?_, fun b => rfl, rfl, rfl⟩ <;>
    simpa [compare_values, isna, is_number, pyFloat, sub_self, abs_zero] using ht

/-- C10 witness: True against the integer 1 at tolerance 0. -/
theorem c10_bool_numeric_equality_witness :
    (0 : Rat) ≤ 0 ∧ compare_values (.boolVal true) (.intVal 1) 0 false = true :=
  ⟨le_refl 0, (c10_bool_numeric_equality 0 false (le_refl 0)).1⟩

end ExcelCompare
